import Mathlib

/-!
Verification of the storage abstraction layer (core/store/src/db.rs):
the transactional batch model, the Database trait surface, refcount
stripping on reads, reserved bookkeeping keys and statistics shapes.

Byte strings are modelled as lists of naturals; panics (assertion
failures) are modelled explicitly: an operation that may panic returns
a Bool success flag paired with the resulting state, or an Option whose
none constructor marks the panic.
-/

/-- Byte strings (Vec of u8 in the source) as lists of naturals. -/
abbrev Bytes := List Nat

/-- Errors of the io Result type; their content is irrelevant here. -/
abbrev IOError := String

/-- A column identifier together with the two predicates of the column
classifier. In the source DBCol is an enumerated tag and the predicates
are methods looked up per tag; the classifier itself is an external
collaborator, so a column is modelled as its tag plus the two booleans
the classifier would answer. -/
structure DBCol where
  tag : Nat
  is_rc : Bool
  is_insert_only : Bool
deriving DecidableEq

/-- The operation tagged union DBOp from db.rs. -/
inductive DBOp where
  | Set (col : DBCol) (key : Bytes) (value : Bytes)
  | Insert (col : DBCol) (key : Bytes) (value : Bytes)
  | UpdateRefcount (col : DBCol) (key : Bytes) (value : Bytes)
  | Delete (col : DBCol) (key : Bytes)
  | DeleteAll (col : DBCol)
  | DeleteRange (col : DBCol) (fromKey : Bytes) (toKey : Bytes)
deriving DecidableEq

/-- DBOp.col from db.rs: the column an operation touches. -/
def DBOp.col : DBOp → DBCol
  | .Set c _ _ => c
  | .Insert c _ _ => c
  | .UpdateRefcount c _ _ => c
  | .Delete c _ => c
  | .DeleteAll c => c
  | .DeleteRange c _ _ => c

/-- DBTransaction from db.rs: an ordered list of operations. -/
structure DBTransaction where
  ops : List DBOp
deriving DecidableEq

/-- DBTransaction.new: the empty transaction. -/
def DBTransaction.new : DBTransaction := ⟨[]⟩

/-- The derived Default value of DBTransaction (derive(Default) on a
struct holding one Vec yields the empty Vec). -/
def DBTransaction.default : DBTransaction := ⟨[]⟩

/-- DBTransaction.set: pushes a Set operation, no checks. -/
def DBTransaction.set (t : DBTransaction) (col : DBCol) (key value : Bytes) :
    DBTransaction :=
  ⟨t.ops ++ [DBOp.Set col key value]⟩

/-- DBTransaction.insert: asserts is_insert_only, then pushes the
operation. The Bool is the success flag: false models the assertion
panic, in which case nothing was pushed and the transaction is returned
unchanged. -/
def DBTransaction.insert (t : DBTransaction) (col : DBCol) (key value : Bytes) :
    Bool × DBTransaction :=
  if col.is_insert_only then (true, ⟨t.ops ++ [DBOp.Insert col key value]⟩)
  else (false, t)

/-- DBTransaction.update_refcount: asserts is_rc, then pushes the
operation. The Bool is the success flag as in insert. -/
def DBTransaction.update_refcount (t : DBTransaction) (col : DBCol) (key value : Bytes) :
    Bool × DBTransaction :=
  if col.is_rc then (true, ⟨t.ops ++ [DBOp.UpdateRefcount col key value]⟩)
  else (false, t)

/-- DBTransaction.delete: pushes a Delete operation, no checks. -/
def DBTransaction.delete (t : DBTransaction) (col : DBCol) (key : Bytes) :
    DBTransaction :=
  ⟨t.ops ++ [DBOp.Delete col key]⟩

/-- DBTransaction.delete_all: pushes a DeleteAll operation, no checks. -/
def DBTransaction.delete_all (t : DBTransaction) (col : DBCol) : DBTransaction :=
  ⟨t.ops ++ [DBOp.DeleteAll col]⟩

/-- DBTransaction.delete_range: pushes a DeleteRange operation, no
checks. -/
def DBTransaction.delete_range (t : DBTransaction) (col : DBCol) (fromKey toKey : Bytes) :
    DBTransaction :=
  ⟨t.ops ++ [DBOp.DeleteRange col fromKey toKey]⟩

/-- DBTransaction.merge: extends the operation vector of this
transaction with the operations of the other transaction. -/
def DBTransaction.merge (t other : DBTransaction) : DBTransaction :=
  ⟨t.ops ++ other.ops⟩

/-- assert_no_overwrite from db.rs: the write-once overwrite check, an
assertion that the new value equals the previously stored one. true is
success, false models the fatal assertion failure. -/
def assert_no_overwrite (_col : DBCol) (_key : Bytes) (value old_value : Bytes) : Bool :=
  value == old_value

/-- Decode a list of bytes as a little-endian natural number. -/
def leDecode (l : List Nat) : Nat :=
  l.foldr (fun b acc => b % 256 + 256 * acc) 0

/-- Modelled from the spec: DBSlice.strip_refcount lives in slice.rs
and refcount.rs, which are not part of the reviewed sources; the spec
says a refcounted stored value is payload bytes followed by a
fixed-width signed 64-bit count suffix, and strip returns none when the
decoded count is non-positive and some payload otherwise. Inputs
shorter than the 8-byte suffix carry no positive count and strip to
none. -/
def strip_refcount (bytes : Bytes) : Option Bytes :=
  if bytes.length < 8 then none
  else
    let n := leDecode (bytes.drop (bytes.length - 8))
    let rc : Int := if n < 2 ^ 63 then (n : Int) else (n : Int) - 2 ^ 64
    if rc ≤ 0 then none else some (bytes.take (bytes.length - 8))

/-- StatsValue from db.rs: the four shapes of a statistics value. -/
inductive StatsValue where
  | Count (v : Int)
  | Sum (v : Int)
  | Percentile (rank : Nat) (value : Float)
  | ColumnValue (col : DBCol) (v : Int)

/-- StoreStatistics from db.rs: an ordered list of metric-name and
typed-value-list pairs. -/
structure StoreStatistics where
  data : List (String × List StatsValue)

/-- The Database trait surface needed by the claims. get_raw_bytes and
get_store_statistics are required methods with no body in db.rs, so a
database is modelled as the pair of those behaviours: a raw point
lookup returning an io Result of an optional stored byte string, and an
optional statistics report. -/
structure Database where
  get_raw_bytes : DBCol → Bytes → Except IOError (Option Bytes)
  get_store_statistics : Option StoreStatistics

/-- Database.get_with_rc_stripped, the default trait method from db.rs:
asserts is_rc, then returns the raw lookup with the question-mark
operator propagating its error and and_then applying strip_refcount to
a present value. The outer Option models the panic on a non-rc column
(none is the panic). -/
def Database.get_with_rc_stripped (db : Database) (col : DBCol) (key : Bytes) :
    Option (Except IOError (Option Bytes)) :=
  if col.is_rc then
    some (match db.get_raw_bytes col key with
      | .error e => .error e
      | .ok raw => .ok (raw.bind strip_refcount))
  else none

/-- ASCII byte string of a Lean string literal. -/
def asciiBytes (s : String) : Bytes :=
  s.toList.map Char.toNat

/-- HEAD_KEY from db.rs. -/
def HEAD_KEY : Bytes := asciiBytes "HEAD"

/-- TAIL_KEY from db.rs. -/
def TAIL_KEY : Bytes := asciiBytes "TAIL"

/-- CHUNK_TAIL_KEY from db.rs. -/
def CHUNK_TAIL_KEY : Bytes := asciiBytes "CHUNK_TAIL"

/-- FORK_TAIL_KEY from db.rs. -/
def FORK_TAIL_KEY : Bytes := asciiBytes "FORK_TAIL"

/-- HEADER_HEAD_KEY from db.rs. -/
def HEADER_HEAD_KEY : Bytes := asciiBytes "HEADER_HEAD"

/-- FINAL_HEAD_KEY from db.rs. -/
def FINAL_HEAD_KEY : Bytes := asciiBytes "FINAL_HEAD"

/-- LATEST_KNOWN_KEY from db.rs. -/
def LATEST_KNOWN_KEY : Bytes := asciiBytes "LATEST_KNOWN"

/-- LARGEST_TARGET_HEIGHT_KEY from db.rs. -/
def LARGEST_TARGET_HEIGHT_KEY : Bytes := asciiBytes "LARGEST_TARGET_HEIGHT"

/-- GENESIS_JSON_HASH_KEY from db.rs. -/
def GENESIS_JSON_HASH_KEY : Bytes := asciiBytes "GENESIS_JSON_HASH"

/-- GENESIS_STATE_ROOTS_KEY from db.rs. -/
def GENESIS_STATE_ROOTS_KEY : Bytes := asciiBytes "GENESIS_STATE_ROOTS"

/-- COLD_HEAD_KEY from db.rs. -/
def COLD_HEAD_KEY : Bytes := asciiBytes "COLD_HEAD"

/-- Strict lexicographic order on byte strings, the key order every
backend iterates in. -/
def bytesLt : Bytes → Bytes → Bool
  | [], [] => false
  | [], _ :: _ => true
  | _ :: _, [] => false
  | a :: as, b :: bs => if a < b then true else if b < a then false else bytesLt as bs

/-- Non-strict lexicographic order on byte strings. -/
def bytesLe (a b : Bytes) : Bool := !bytesLt b a

/-- The contents of one column, as the ordered list of key and value
pairs a full iteration would yield. -/
abbrev ColContents := List (Bytes × Bytes)

/-- Modelled from the spec: the Database trait only declares iter, the
implementations (rocksdb.rs, testdb.rs, colddb.rs, splitdb.rs) are not
part of the reviewed sources. Iteration over a whole column yields its
contents in key order; the model takes that ordered sequence itself as
the column representation, so iter is the identity on it. -/
def iterCol (m : ColContents) : ColContents := m

/-- Modelled from the spec: iter_range has no body in db.rs; its doc
comment and the spec say it yields the items of iter whose keys are in
the half-open window, the lower bound inclusive when present and the
start of the column otherwise, the upper bound exclusive when present
and the end of the column otherwise. -/
def iter_range (m : ColContents) (lower_bound upper_bound : Option Bytes) :
    ColContents :=
  (iterCol m).filter fun kv =>
    (match lower_bound with
      | none => true
      | some l => bytesLe l kv.1) &&
    (match upper_bound with
      | none => true
      | some u => bytesLt kv.1 u)

/-- A sample reference-counted column. -/
def colRc : DBCol := ⟨0, true, false⟩

/-- A sample insert-only column. -/
def colIns : DBCol := ⟨1, false, true⟩

/-- A sample plain column, neither refcounted nor insert-only. -/
def colPlain : DBCol := ⟨2, false, false⟩

/-- A sample database behaviour for concrete evaluation: the empty key
is absent, the key holding the single byte 255 fails with an io error,
and every other key is mapped to itself; no statistics are tracked. -/
def dbStub : Database :=
  ⟨fun _ key =>
      if key = [] then .ok none
      else if key = [255] then .error "io"
      else .ok (some key),
    none⟩

/- Theorems. -/

/-- Helper: strict lexicographic order on byte strings is
irreflexive. -/
theorem bytesLt_irrefl (a : Bytes) : bytesLt a a = false := by
  induction a with
  | nil => rfl
  | cons x xs ih => simp [bytesLt, ih]

/-- Helper: non-strict lexicographic order on byte strings is
reflexive. -/
theorem bytesLe_refl (a : Bytes) : bytesLe a a = true := by
  simp [bytesLe, bytesLt_irrefl]

/-- Claim C1: on a column with is_rc true, get_with_rc_stripped
propagates an io error from get_raw_bytes unchanged, returns a
successful none when the raw lookup finds nothing, and otherwise
returns the refcount-stripping function applied to the raw bytes; on a
column with is_rc false the call is an assertion failure (modelled by
the none result). -/
theorem get_with_rc_stripped_spec (db : Database) (col : DBCol) (key : Bytes) :
    (col.is_rc = true →
      (∀ e, db.get_raw_bytes col key = .error e →
        db.get_with_rc_stripped col key = some (.error e))
      ∧ (db.get_raw_bytes col key = .ok none →
        db.get_with_rc_stripped col key = some (.ok none))
      ∧ (∀ bytes, db.get_raw_bytes col key = .ok (some bytes) →
        db.get_with_rc_stripped col key = some (.ok (strip_refcount bytes))))
    ∧ (col.is_rc = false → db.get_with_rc_stripped col key = none) := by
  unfold Database.get_with_rc_stripped
  constructor
  · intro h
    refine ⟨fun e he => ?_, fun he => ?_, fun bytes he => ?_⟩ <;> simp [h, he]
  · intro h
    simp [h]

/-- Witness for C1 at concrete inputs: a stripped read of a present
8-byte value with positive refcount, and the assertion failure on a
non-rc column. -/
theorem get_with_rc_stripped_spec_witness :
    dbStub.get_with_rc_stripped colRc [9, 9, 9, 9, 9, 9, 9, 1]
      = some (.ok (strip_refcount [9, 9, 9, 9, 9, 9, 9, 1]))
    ∧ dbStub.get_with_rc_stripped colPlain [] = none :=
  ⟨((get_with_rc_stripped_spec dbStub colRc [9, 9, 9, 9, 9, 9, 9, 1]).1 rfl).2.2
      [9, 9, 9, 9, 9, 9, 9, 1] rfl,
    (get_with_rc_stripped_spec dbStub colPlain []).2 rfl⟩

/-- Claim C2: insert appends an Insert operation exactly when
is_insert_only holds and update_refcount appends an UpdateRefcount
operation exactly when is_rc holds; when the respective predicate is
false the call is an assertion failure (success flag false) and the
operation list is unchanged. -/
theorem insert_update_refcount_assert_spec
    (t : DBTransaction) (col : DBCol) (key value : Bytes) :
    ((t.insert col key value).1 = col.is_insert_only)
    ∧ (col.is_insert_only = true →
        (t.insert col key value).2.ops = t.ops ++ [DBOp.Insert col key value])
    ∧ (col.is_insert_only = false → (t.insert col key value).2 = t)
    ∧ ((t.update_refcount col key value).1 = col.is_rc)
    ∧ (col.is_rc = true →
        (t.update_refcount col key value).2.ops
          = t.ops ++ [DBOp.UpdateRefcount col key value])
    ∧ (col.is_rc = false → (t.update_refcount col key value).2 = t) := by
  unfold DBTransaction.insert DBTransaction.update_refcount
  cases h : col.is_insert_only <;> cases h2 : col.is_rc <;> simp

/-- Witness for C2 at concrete inputs: a successful insert on an
insert-only column, a rejected insert on an rc column, a successful
update_refcount on an rc column, and a rejected update_refcount on an
insert-only column. -/
theorem insert_update_refcount_assert_spec_witness :
    (DBTransaction.new.insert colIns [1] [2]).2.ops = [DBOp.Insert colIns [1] [2]]
    ∧ (DBTransaction.new.insert colRc [1] [2]).2 = DBTransaction.new
    ∧ (DBTransaction.new.update_refcount colRc [1] [2]).2.ops
        = [DBOp.UpdateRefcount colRc [1] [2]]
    ∧ (DBTransaction.new.update_refcount colIns [1] [2]).2 = DBTransaction.new := by
  refine ⟨?_, ?_, ?_, ?_⟩
  · simpa [DBTransaction.new] using
      (insert_update_refcount_assert_spec DBTransaction.new colIns [1] [2]).2.1 rfl
  · exact (insert_update_refcount_assert_spec DBTransaction.new colRc [1] [2]).2.2.1 rfl
  · simpa [DBTransaction.new] using
      (insert_update_refcount_assert_spec DBTransaction.new colRc [1] [2]).2.2.2.2.1 rfl
  · exact
      (insert_update_refcount_assert_spec DBTransaction.new colIns [1] [2]).2.2.2.2.2 rfl

/-- Claim C3: the write-once overwrite check succeeds exactly when the
new value equals the previously stored value bit for bit, and in
particular passes when the same value is written twice. -/
theorem assert_no_overwrite_spec (col : DBCol) (key value old_value : Bytes) :
    (assert_no_overwrite col key value old_value = true ↔ value = old_value)
    ∧ assert_no_overwrite col key value value = true := by
  unfold assert_no_overwrite
  exact ⟨beq_iff_eq, beq_self_eq_true value⟩

/-- Witness for C3 at concrete inputs: equal values pass the check and
different values fail it. -/
theorem assert_no_overwrite_spec_witness :
    assert_no_overwrite colIns [1] [2, 3] [2, 3] = true
    ∧ assert_no_overwrite colIns [1] [2, 3] [2, 4] ≠ true :=
  ⟨(assert_no_overwrite_spec colIns [1] [2, 3] [2, 3]).1.mpr rfl,
    fun h => by simpa using (assert_no_overwrite_spec colIns [1] [2, 3] [2, 4]).1.mp h⟩

/-- Claim C4: merge makes the operation list of the receiver the
concatenation of its prior operations followed by all operations of the
other transaction, preserving order and the operations themselves. -/
theorem merge_concat_spec (t other : DBTransaction) :
    (t.merge other).ops = t.ops ++ other.ops := rfl

/-- Claim C5: set, delete, delete_all and delete_range each append
exactly one corresponding operation at the end of the list for any
column, with no precondition, leaving all prior operations unchanged;
a duplicate operation is kept, not deduplicated. -/
theorem unconditional_ops_append_spec
    (t : DBTransaction) (col : DBCol) (key value fromKey toKey : Bytes) :
    (t.set col key value).ops = t.ops ++ [DBOp.Set col key value]
    ∧ (t.delete col key).ops = t.ops ++ [DBOp.Delete col key]
    ∧ (t.delete_all col).ops = t.ops ++ [DBOp.DeleteAll col]
    ∧ (t.delete_range col fromKey toKey).ops
        = t.ops ++ [DBOp.DeleteRange col fromKey toKey]
    ∧ ((t.set col key value).set col key value).ops
        = t.ops ++ [DBOp.Set col key value, DBOp.Set col key value] := by
  refine ⟨rfl, rfl, rfl, rfl, ?_⟩
  simp [DBTransaction.set]

/-- Counterexample for claim C6 as stated: it quantifies over every
pair of keys, but with the lower and upper bound both equal to the key
of the only stored entry the half-open window is empty, so the present
lower-bound key is not yielded. -/
theorem iter_range_contains_lower_counterexample :
    ¬ (∀ (m : ColContents) (k1 k2 : Bytes),
        (∃ v, (k1, v) ∈ iterCol m) →
        ∃ v, (k1, v) ∈ iter_range m (some k1) (some k2)) := by
  intro h
  obtain ⟨v, hv⟩ := h [([0], [1])] [0] [0] ⟨[1], by decide⟩
  have e : iter_range [(([0] : Bytes), ([1] : Bytes))] (some [0]) (some [0])
      = ([] : ColContents) := rfl
  rw [e] at hv
  exact List.not_mem_nil _ hv

/-- Claim C6 amended: iter_range with both bounds present never yields
the upper bound key; it yields the lower bound key whenever that key is
present and lexicographically below the upper bound; and iter_range
with no bounds is exactly iter. -/
theorem iter_range_spec (m : ColContents) (k1 k2 : Bytes) :
    (∀ v, (k2, v) ∉ iter_range m (some k1) (some k2))
    ∧ (bytesLt k1 k2 = true →
        ∀ v, (k1, v) ∈ iterCol m → (k1, v) ∈ iter_range m (some k1) (some k2))
    ∧ iter_range m none none = iterCol m := by
  refine ⟨fun v hv => ?_, fun h v hv => ?_, ?_⟩
  · have := (List.mem_filter.mp hv).2
    simp [bytesLt_irrefl] at this
  · exact List.mem_filter.mpr ⟨hv, by simp [bytesLe_refl, h]⟩
  · simp [iter_range]

/-- Witness for the amended C6 at concrete inputs: with bounds zero and
one, the entry at key zero is yielded. -/
theorem iter_range_spec_witness :
    (([0], [5]) ∈ iter_range [(([0] : Bytes), ([5] : Bytes))] (some [0]) (some [1])) :=
  (iter_range_spec [([0], [5])] [0] [1]).2.1 rfl [5] (by decide)

/-- Claim C7: a lookup through get_with_rc_stripped reports absence as
a successful none, never as an error, and its error case is exactly an
io failure of the underlying get_raw_bytes: no io failure is converted
into a successful none. -/
theorem lookup_error_discipline_spec (db : Database) (col : DBCol) (key : Bytes)
    (h : col.is_rc = true) :
    (db.get_raw_bytes col key = .ok none →
      db.get_with_rc_stripped col key = some (.ok none))
    ∧ (∀ e, db.get_with_rc_stripped col key = some (.error e) ↔
        db.get_raw_bytes col key = .error e) := by
  unfold Database.get_with_rc_stripped
  constructor
  · intro he
    simp [h, he]
  · intro e
    cases hr : db.get_raw_bytes col key <;> simp [h, hr]

/-- Witness for C7 at concrete inputs: the absent empty key reads back
as a successful none, and the erroring key propagates its io error. -/
theorem lookup_error_discipline_spec_witness :
    dbStub.get_with_rc_stripped colRc [] = some (.ok none)
    ∧ dbStub.get_with_rc_stripped colRc [255] = some (.error "io") :=
  ⟨(lookup_error_discipline_spec dbStub colRc [] rfl).1 rfl,
    ((lookup_error_discipline_spec dbStub colRc [255] rfl).2 "io").mpr rfl⟩

/-- Claim C8: the reserved bookkeeping keys are fixed ASCII byte
strings of the stated lengths (head 4, fork tail 9, header head 11,
largest target height 21), and the similarly named constants for tail,
chunk tail, final head, latest known, genesis json hash, genesis state
roots and cold head exist with their source lengths; every byte of
every key is ASCII. -/
theorem reserved_keys_spec :
    HEAD_KEY.length = 4
    ∧ FORK_TAIL_KEY.length = 9
    ∧ HEADER_HEAD_KEY.length = 11
    ∧ LARGEST_TARGET_HEIGHT_KEY.length = 21
    ∧ TAIL_KEY.length = 4
    ∧ CHUNK_TAIL_KEY.length = 10
    ∧ FINAL_HEAD_KEY.length = 10
    ∧ LATEST_KNOWN_KEY.length = 12
    ∧ GENESIS_JSON_HASH_KEY.length = 17
    ∧ GENESIS_STATE_ROOTS_KEY.length = 19
    ∧ COLD_HEAD_KEY.length = 9
    ∧ ((HEAD_KEY ++ TAIL_KEY ++ CHUNK_TAIL_KEY ++ FORK_TAIL_KEY ++ HEADER_HEAD_KEY
        ++ FINAL_HEAD_KEY ++ LATEST_KNOWN_KEY ++ LARGEST_TARGET_HEIGHT_KEY
        ++ GENESIS_JSON_HASH_KEY ++ GENESIS_STATE_ROOTS_KEY ++ COLD_HEAD_KEY).all
        (fun b => decide (b < 128))) = true := by
  decide

/-- Claim C9: every statistics value is one of exactly the four shapes
count, sum, percentile pair and column pair; a statistics object is an
ordered list of metric-name and typed-value-list entries; and a backend
reporting no statistics at all is a valid database. -/
theorem stats_shape_spec (v : StatsValue) (s : StoreStatistics) :
    ((∃ c, v = StatsValue.Count c) ∨ (∃ c, v = StatsValue.Sum c)
      ∨ (∃ r x, v = StatsValue.Percentile r x)
      ∨ (∃ col c, v = StatsValue.ColumnValue col c))
    ∧ (∃ l : List (String × List StatsValue), s.data = l)
    ∧ (∃ db : Database, db.get_store_statistics = none) := by
  refine ⟨?_, ⟨s.data, rfl⟩, ⟨⟨fun _ _ => .ok none, none⟩, rfl⟩⟩
  cases v with
  | Count c => exact Or.inl ⟨c, rfl⟩
  | Sum c => exact Or.inr (Or.inl ⟨c, rfl⟩)
  | Percentile r x => exact Or.inr (Or.inr (Or.inl ⟨r, x, rfl⟩))
  | ColumnValue col c => exact Or.inr (Or.inr (Or.inr ⟨col, c, rfl⟩))

/-- Claim C10: a fresh transaction equals the Default value and has an
empty operation list, and the empty transaction is a two-sided identity
for merge. -/
theorem empty_transaction_identity_spec (t : DBTransaction) :
    DBTransaction.new.ops = []
    ∧ DBTransaction.new = DBTransaction.default
    ∧ (t.merge DBTransaction.new).ops = t.ops
    ∧ (DBTransaction.new.merge t).ops = t.ops := by
  refine ⟨rfl, rfl, ?_, rfl⟩
  simp [DBTransaction.merge, DBTransaction.new]
